import Mathlib

/-!
Shallow embedding of the clinical-trial-matcher request handlers.

Sources embedded here:
  * `src/unnamed/part_001` — the rate-limited Next.js route handler `POST`
    (in-memory `userRequests` map, `MAX_REQUESTS_PER_IP = 10`, demo mode,
    Groq backend call, post-call counter increment).
  * `src/frontend/app/api/match/route.js` — the deployed route handler
    `POST` (same pipeline, no rate limiting), embedded as `routePOST`.
  * `src/frontend/app/components/PDFReport.js` — the per-status summary
    counts of `TrialReport` (lines 170-173).

JavaScript conventions modelled explicitly:
  * a possibly-absent object field is `Option String`; interpolating an
    absent field into a template literal prints `undefined` (`jsToString`);
  * `a || b` on strings treats the empty string as falsy (`jsOrString`,
    `jsTruthyOpt`);
  * `String.prototype.slice(0, n)` is `jsSlice`;
  * `Map.get`/`Map.set` on the `userRequests` map are `mapGet`/`mapSet`
    over an insertion-ordered association list;
  * a `fetch`/SDK call that throws (timeout, provider rate limit, network
    error) is `BackendResult.failure`; a call that returns is
    `BackendResult.success` carrying the completion object;
  * a body whose JSON parsing throws is `body = none`.
-/

namespace ClinicalTrialMatcher

/-- JS string truthiness of a possibly-absent value: `undefined`/`null` and
the empty string are falsy. -/
def jsTruthyOpt (o : Option String) : Bool :=
  match o with
  | none => false
  | some s => s != ""

/-- JS `a || b` where `a` is a possibly-absent string and `b` a string. -/
def jsOrString (a : Option String) (b : String) : String :=
  match a with
  | none => b
  | some s => if s = "" then b else s

/-- JS template interpolation of a possibly-absent field: `undefined`
prints as the string `undefined`. -/
def jsToString (o : Option String) : String :=
  o.getD "undefined"

/-- JS `s.slice(0, n)`: the first `n` characters of `s`. -/
def jsSlice (s : String) (n : Nat) : String :=
  String.mk (s.data.take n)

/-- Insertion-ordered association list modelling the JS `Map` used for
`userRequests`; `mapGet` is `Map.get`. -/
def mapGet (m : List (String × Nat)) (k : String) : Option Nat :=
  match m with
  | [] => none
  | (k2, v) :: rest => if k2 = k then some v else mapGet rest k

/-- JS `Map.set`: update in place if the key exists, else append. -/
def mapSet (m : List (String × Nat)) (k : String) (v : Nat) :
    List (String × Nat) :=
  match m with
  | [] => [(k, v)]
  | (k2, v2) :: rest =>
      if k2 = k then (k, v) :: rest else (k2, v2) :: mapSet rest k v

abbrev RateMap := List (String × Nat)

/-- `src/unnamed/part_001` line 5: `const MAX_REQUESTS_PER_IP = 10`. -/
def MAX_REQUESTS_PER_IP : Nat := 10

/-- The patient profile object parsed from the request body; every field
may be absent (the JS code never validates the body). -/
structure PatientData where
  age : Option String
  gender : Option String
  conditions : Option String
  medications : Option String
  biomarkers : Option String
deriving DecidableEq, Repr

/-- A trial record from the hardcoded `SAMPLE_TRIALS` array. -/
structure Trial where
  nct_id : String
  title : String
  conditions : String
  phase : String
deriving DecidableEq, Repr

/-- The two hardcoded sample trials (route.js lines 4-17, part_001
lines 50-63). -/
def SAMPLE_TRIALS : List Trial :=
  [ { nct_id := "NCT04743505",
      title := "Study of Novel Therapy for Lung Cancer",
      conditions := "Non-Small Cell Lung Cancer",
      phase := "Phase 3" },
    { nct_id := "NCT05745350",
      title := "Diabetes Management Trial",
      conditions := "Type 2 Diabetes",
      phase := "Phase 2" } ]

/-- One entry of the `matches` array of a response. -/
structure MatchResult where
  nct_id : String
  title : String
  status : String
  explanation : String
deriving DecidableEq, Repr

/-- Body of a `NextResponse.json(...)`: either the `{message, matches}`
shape or the `{error}` shape. -/
inductive ResponseBody where
  | matchList (message : String) (matchItems : List MatchResult)
  | errorObj (error : String)
deriving DecidableEq, Repr

/-- A `NextResponse.json(body, {status})`; the default HTTP status is
200. -/
structure ResponseModel where
  body : ResponseBody
  status : Nat
deriving DecidableEq, Repr

/-- The matches array of a response (empty for an error body). -/
def responseMatches (r : ResponseModel) : List MatchResult :=
  match r.body with
  | .matchList _ ms => ms
  | .errorObj _ => []

/-- Outcome of a Groq chat-completion message. -/
structure GroqMessage where
  content : String
deriving DecidableEq, Repr

structure GroqChoice where
  message : GroqMessage
deriving DecidableEq, Repr

structure Completion where
  choices : List GroqChoice
deriving DecidableEq, Repr

/-- Outcome of the awaited `groq.chat.completions.create(...)` call:
either the promise rejects (timeout, provider rate limit, network error)
or it resolves to a completion object. -/
inductive BackendResult where
  | failure
  | success (completion : Completion)
deriving DecidableEq, Repr

/-- The environment of one request: the `process.env.GROQ_API_KEY`
variable and the oracle for what the backend call would return. -/
structure Env where
  GROQ_API_KEY : Option String
  backend : BackendResult
deriving DecidableEq, Repr

/-- The inbound request: the two IP headers and the parsed JSON body
(`none` when `await request.json()` throws). -/
structure RequestModel where
  xForwardedFor : Option String
  xRealIp : Option String
  body : Option PatientData
deriving DecidableEq, Repr

/-- part_001 lines 10-12: `headers.get(x-forwarded-for) ||
headers.get(x-real-ip) || unknown`. -/
def getIp (req : RequestModel) : String :=
  jsOrString req.xForwardedFor (jsOrString req.xRealIp "unknown")

/-- Observable side effects performed by the handler, in program order;
the rate-limit check itself is not listed because it is pure reading of
in-process state. -/
inductive Effect where
  | parseBody
  | importGroq
  | backendCall (prompt : String)
deriving DecidableEq, Repr

/-- JSON.stringify of one sample trial (no field of the hardcoded data
needs character escaping). -/
def jsonStringifyTrial (t : Trial) : String :=
  "\x7b\"nct_id\":\"" ++ t.nct_id ++ "\",\"title\":\"" ++ t.title ++
    "\",\"conditions\":\"" ++ t.conditions ++ "\",\"phase\":\"" ++
    t.phase ++ "\"\x7d"

/-- JSON.stringify of the trials array. -/
def jsonStringifyTrials (ts : List Trial) : String :=
  "[" ++ String.intercalate "," (ts.map jsonStringifyTrial) ++ "]"

/-- The analysis prompt template of part_001 lines 66-74 (route.js lines
48-56 build the same prompt up to trailing whitespace and model name). -/
def mkPrompt (p : PatientData) : String :=
  "Analyze if this patient is eligible for clinical trials:\n    Patient: Age "
    ++ jsToString p.age ++ ", " ++ jsToString p.gender ++
    ",\n    Conditions: " ++ jsToString p.conditions ++
    "\n    Medications: " ++ jsOrString p.medications "None" ++
    "\n    Biomarkers: " ++ jsOrString p.biomarkers "None" ++
    "\n\n    Available trials: " ++ jsonStringifyTrials SAMPLE_TRIALS ++
    "\n\n    Return a JSON array with eligibility status for each trial."

/-- part_001 lines 17-20: the 429 rate-limited response. -/
def rateLimitResponse : ResponseModel :=
  { body := .matchList
      "You\x27ve reached the free usage limit (10 searches). Please contact for unlimited access."
      [],
    status := 429 }

/-- part_001 lines 103-106 (route.js lines 82-85): the catch-all 500
error response. -/
def serverErrorResponse : ResponseModel :=
  { body := .errorObj "Failed to process request", status := 500 }

/-- part_001 lines 30-40 (route.js lines 28-38): the demo-mode response
returned when no Groq key is configured. -/
def demoResponse (p : PatientData) : ResponseModel :=
  { body := .matchList "Running in demo mode (no API key configured)"
      [ { nct_id := "NCT-DEMO-001",
          title := "Demo Trial for " ++ jsToString p.conditions,
          status := "NEEDS_REVIEW",
          explanation := "This is a demo result. Configure Groq API for real matching." } ],
    status := 200 }

/-- part_001 lines 89-99 (route.js lines 68-78): the hardcoded success
response; the single match carries the first choice content sliced to
200 characters. -/
def successResponse (content : String) : ResponseModel :=
  { body := .matchList "Analysis complete"
      [ { nct_id := "NCT04743505",
          title := "Lung Cancer Study",
          status := "ELIGIBLE",
          explanation := jsSlice content 200 } ],
    status := 200 }

/-- The rate-limited handler `POST` of `src/unnamed/part_001`, returning
the response, the `userRequests` map after the request, and the effects
performed. Branch order follows the source: rate-limit check (lines
14-21), body parse (line 23), demo-mode switch (lines 26-41),
Groq import and call (lines 44-84), increment (lines 86-87), response
construction (lines 89-99); any throw lands in the catch of lines
101-107. Accessing `completion.choices[0].message.content` throws when
`choices` is empty, which happens after the increment. -/
def POST (env : Env) (req : RequestModel) (userRequests : RateMap) :
    ResponseModel × RateMap × List Effect :=
  let ip := getIp req
  let userCount := (mapGet userRequests ip).getD 0
  if userCount ≥ MAX_REQUESTS_PER_IP then
    (rateLimitResponse, userRequests, [])
  else
    match req.body with
    | none => (serverErrorResponse, userRequests, [.parseBody])
    | some patientData =>
      if !(jsTruthyOpt env.GROQ_API_KEY) then
        (demoResponse patientData, userRequests, [.parseBody])
      else
        let prompt := mkPrompt patientData
        match env.backend with
        | .failure =>
            (serverErrorResponse, userRequests,
             [.parseBody, .importGroq, .backendCall prompt])
        | .success completion =>
            let userRequests2 := mapSet userRequests ip (userCount + 1)
            match completion.choices with
            | [] =>
                (serverErrorResponse, userRequests2,
                 [.parseBody, .importGroq, .backendCall prompt])
            | choice :: _ =>
                (successResponse choice.message.content, userRequests2,
                 [.parseBody, .importGroq, .backendCall prompt])

/-- The deployed handler `POST` of
`src/frontend/app/api/match/route.js`: the same pipeline without any
rate limiting (body parse at line 21, demo switch lines 24-39, Groq call
lines 58-66, response lines 68-78, catch lines 80-86). -/
def routePOST (env : Env) (req : RequestModel) :
    ResponseModel × List Effect :=
  match req.body with
  | none => (serverErrorResponse, [.parseBody])
  | some patientData =>
    if !(jsTruthyOpt env.GROQ_API_KEY) then
      (demoResponse patientData, [.parseBody])
    else
      let prompt := mkPrompt patientData
      match env.backend with
      | .failure =>
          (serverErrorResponse, [.parseBody, .importGroq, .backendCall prompt])
      | .success completion =>
          match completion.choices with
          | [] =>
              (serverErrorResponse, [.parseBody, .importGroq, .backendCall prompt])
          | choice :: _ =>
              (successResponse choice.message.content,
               [.parseBody, .importGroq, .backendCall prompt])

/-!
Interleaving model of the rate-governor state of part_001, for the
concurrency claim. A request touches the `userRequests` map twice, in
two distinct atomic segments of the Node.js event loop:

  * the check (lines 15-21): runs synchronously at handler entry, reads
    `userCount = userRequests.get(ip) || 0` and either denies (count at
    the limit) or proceeds, remembering the read `userCount`;
  * the increment (lines 86-87): runs in the continuation after the
    awaited backend call resolves, and writes the stale
    `userCount + 1` back (not the current map value plus one).

Between these two segments the handler suspends on `await`, so the
checks and increments of concurrent requests from the same IP may
interleave arbitrarily. The model tracks the single counter for one IP
and the phase of each concurrent request; a schedule picks which request
advances next. -/

/-- Phase of one in-flight request of the interleaving model. -/
inductive ReqPhase where
  | initial
  | passedCheck (observed : Nat)
  | deniedReq
  | finished
deriving DecidableEq, Repr

/-- Counter for one IP plus the phases of the concurrent requests. -/
structure GovState where
  count : Nat
  phases : List ReqPhase
deriving DecidableEq, Repr

/-- Advance one request by one atomic segment: the check, or the
post-backend increment writing the stale observed count plus one. -/
def phaseStep (count : Nat) : ReqPhase → Nat × ReqPhase
  | .initial =>
      if count ≥ MAX_REQUESTS_PER_IP then (count, .deniedReq)
      else (count, .passedCheck count)
  | .passedCheck observed => (observed + 1, .finished)
  | p => (count, p)

/-- Run one scheduled step: advance the request at index `i` (a step on
an absent or completed request is a no-op). -/
def govStep (s : GovState) (i : Nat) : GovState :=
  match s.phases.get? i with
  | none => s
  | some p =>
      let next := phaseStep s.count p
      { count := next.1, phases := s.phases.set i next.2 }

/-- Run a whole schedule (a list of request indices). -/
def govRun (s : GovState) : List Nat → GovState
  | [] => s
  | i :: rest => govRun (govStep s i) rest

/-- A request counts as an Admit decision once it has passed the
rate-limit check. -/
def isAdmitted : ReqPhase → Bool
  | .passedCheck _ => true
  | .finished => true
  | _ => false

/-- Number of Admit decisions issued so far. -/
def admittedCount (s : GovState) : Nat :=
  (s.phases.filter isAdmitted).length

/-- Initial state: fresh counter, `n` requests not yet started. -/
def govInit (n : Nat) : GovState :=
  { count := 0, phases := List.replicate n .initial }

/-- The schedule in which all `n` checks run before any increment:
possible because each increment is delayed past the awaited backend
call. -/
def raceSchedule (n : Nat) : List Nat :=
  List.range n ++ List.range n

/-!
Sequential request runner for the rate-limit scenario claims: the same
request is sent repeatedly under a fixed environment, each request
completing before the next starts. -/

/-- The `userRequests` map after `n` completed sequential requests. -/
def runRequests (env : Env) (req : RequestModel) : Nat → RateMap
  | 0 => []
  | n + 1 => (POST env req (runRequests env req n)).2.1

/-- The response of the `n + 1`-st sequential request (0-indexed `n`). -/
def seqResponse (env : Env) (req : RequestModel) (n : Nat) : ResponseModel :=
  (POST env req (runRequests env req n)).1

/-!
Summary counts of `TrialReport` in
`src/frontend/app/components/PDFReport.js`, lines 170-173. The `results`
object may lack the `matches` field, in which case every count is 0 via
the optional chain and `|| 0`. -/

/-- The `results` prop of `TrialReport`. -/
structure ResultsModel where
  matchItems : Option (List MatchResult)
deriving DecidableEq, Repr

/-- Line 170: `results.matches?.filter(m => m.status === 'ELIGIBLE').length || 0`. -/
def eligibleCount (results : ResultsModel) : Nat :=
  match results.matchItems with
  | none => 0
  | some ms => (ms.filter (fun m => m.status == "ELIGIBLE")).length

/-- Line 171: the `NOT_ELIGIBLE` count. -/
def notEligibleCount (results : ResultsModel) : Nat :=
  match results.matchItems with
  | none => 0
  | some ms => (ms.filter (fun m => m.status == "NOT_ELIGIBLE")).length

/-- Line 172: the `NEEDS_REVIEW` count. -/
def reviewCount (results : ResultsModel) : Nat :=
  match results.matchItems with
  | none => 0
  | some ms => (ms.filter (fun m => m.status == "NEEDS_REVIEW")).length

/-- Line 173: `results.matches?.length || 0`. -/
def totalCount (results : ResultsModel) : Nat :=
  match results.matchItems with
  | none => 0
  | some ms => ms.length

/-!
Concrete fixtures used by counterexamples and witnesses. -/

/-- The sample patient of spec Scenario A. -/
def samplePatient : PatientData :=
  { age := some "55", gender := some "Male",
    conditions := some "Non-Small Cell Lung Cancer",
    medications := some "Carboplatin", biomarkers := some "PD-L1: 60%" }

/-- A patient body with no `conditions` field and an out-of-range age. -/
def invalidPatient : PatientData :=
  { age := some "300", gender := some "Male", conditions := none,
    medications := none, biomarkers := none }

/-- A request from identity 1.2.3.4 carrying the sample patient. -/
def req134 : RequestModel :=
  { xForwardedFor := some "1.2.3.4", xRealIp := none,
    body := some samplePatient }

/-- A request from identity 1.2.3.4 carrying the invalid patient. -/
def req134invalid : RequestModel :=
  { xForwardedFor := some "1.2.3.4", xRealIp := none,
    body := some invalidPatient }

/-- A completion with one well-formed choice. -/
def okContent : String :=
  "The patient appears eligible for the lung cancer study based on the stated condition."

def okCompletion : Completion :=
  { choices := [ { message := { content := okContent } } ] }

/-- Environment with a configured key and a backend that succeeds. -/
def liveEnv : Env :=
  { GROQ_API_KEY := some "gsk-test-key", backend := .success okCompletion }

/-- Environment with a configured key and a backend call that throws. -/
def failEnv : Env :=
  { GROQ_API_KEY := some "gsk-test-key", backend := .failure }

/-- Environment with a configured key and a backend that resolves to a
completion whose `choices` array is empty. -/
def emptyChoicesEnv : Env :=
  { GROQ_API_KEY := some "gsk-test-key",
    backend := .success { choices := [] } }

/-- Environment with no `GROQ_API_KEY` set. -/
def noKeyEnv : Env :=
  { GROQ_API_KEY := none, backend := .failure }

/-- A concrete results object with one match of each status plus a
second eligible one. -/
def sampleResults : ResultsModel :=
  { matchItems := some
      [ { nct_id := "NCT04743505", title := "Lung Cancer Study",
          status := "ELIGIBLE", explanation := "Condition matches." },
        { nct_id := "NCT05745350", title := "Diabetes Management Trial",
          status := "NOT_ELIGIBLE", explanation := "Condition differs." },
        { nct_id := "NCT-DEMO-001", title := "Demo Trial",
          status := "NEEDS_REVIEW", explanation := "Demo result." },
        { nct_id := "NCT04743505", title := "Lung Cancer Study",
          status := "ELIGIBLE", explanation := "Biomarker matches." } ] }

/-! Helper lemmas shared by the claim theorems. -/

/-- `s.slice(0, n)` has at most `n` characters. -/
theorem length_jsSlice_le (s : String) (n : Nat) :
    (jsSlice s n).length ≤ n := by
  have h : (jsSlice s n).length = (s.data.take n).length := rfl
  rw [h, List.length_take]
  exact Nat.min_le_left n s.data.length

/-- Each list element with one of the three defined statuses lands in
exactly one of the three status filters. -/
theorem counts_list_conserve (ms : List MatchResult)
    (h : ∀ mr ∈ ms, mr.status = "ELIGIBLE" ∨ mr.status = "NOT_ELIGIBLE" ∨
        mr.status = "NEEDS_REVIEW") :
    (ms.filter (fun m => m.status == "ELIGIBLE")).length +
      (ms.filter (fun m => m.status == "NOT_ELIGIBLE")).length +
      (ms.filter (fun m => m.status == "NEEDS_REVIEW")).length = ms.length := by
  induction ms with
  | nil => rfl
  | cons m rest ih =>
      have hm := h m (List.mem_cons_self m rest)
      have hrest := fun mr hmr => h mr (List.mem_cons_of_mem m hmr)
      have hE : (("ELIGIBLE" : String) == "ELIGIBLE") = true := by decide
      have hEN : (("ELIGIBLE" : String) == "NOT_ELIGIBLE") = false := by decide
      have hER : (("ELIGIBLE" : String) == "NEEDS_REVIEW") = false := by decide
      have hNE : (("NOT_ELIGIBLE" : String) == "ELIGIBLE") = false := by decide
      have hN : (("NOT_ELIGIBLE" : String) == "NOT_ELIGIBLE") = true := by decide
      have hNR : (("NOT_ELIGIBLE" : String) == "NEEDS_REVIEW") = false := by decide
      have hRE : (("NEEDS_REVIEW" : String) == "ELIGIBLE") = false := by decide
      have hRN : (("NEEDS_REVIEW" : String) == "NOT_ELIGIBLE") = false := by decide
      have hR : (("NEEDS_REVIEW" : String) == "NEEDS_REVIEW") = true := by decide
      have ihh := ih hrest
      rcases hm with h1 | h1 | h1 <;>
        · simp only [List.filter_cons, h1, hE, hEN, hER, hNE, hN, hNR, hRE,
            hRN, hR, if_true, if_false, List.length_cons, List.length,
            Bool.false_eq_true]
          omega

/-- The `userRequests` map after `n` sequential successful requests from
identity 1.2.3.4: the count grows to 10 and then sticks there. -/
theorem runRequests_134 (n : Nat) :
    runRequests liveEnv req134 n =
      if n = 0 then [] else [("1.2.3.4", min n 10)] := by
  induction n with
  | zero => rfl
  | succ n ih =>
      show (POST liveEnv req134 (runRequests liveEnv req134 n)).2.1 = _
      rw [ih]
      by_cases h0 : n = 0
      · subst h0
        decide
      · rw [if_neg h0, if_neg (Nat.succ_ne_zero n)]
        by_cases h10 : n < 10
        · have hmin : min n 10 = n := Nat.min_eq_left (Nat.le_of_lt h10)
          have hmin2 : min (n + 1) 10 = n + 1 := Nat.min_eq_left h10
          rw [hmin, hmin2]
          show (POST liveEnv req134 [("1.2.3.4", n)]).2.1 = [("1.2.3.4", n + 1)]
          unfold POST
          have hip : getIp req134 = "1.2.3.4" := rfl
          have hget : (mapGet [("1.2.3.4", n)] (getIp req134)).getD 0 = n := by
            simp [mapGet, hip]
          simp only [hget, hip]
          rw [if_neg (by simpa [MAX_REQUESTS_PER_IP] using Nat.not_le.mpr h10)]
          rfl
        · have hn10 : 10 ≤ n := Nat.le_of_not_lt h10
          have hmin : min n 10 = 10 := Nat.min_eq_right hn10
          have hmin2 : min (n + 1) 10 = 10 :=
            Nat.min_eq_right (Nat.le_succ_of_le hn10)
          rw [hmin, hmin2]
          show (POST liveEnv req134 [("1.2.3.4", 10)]).2.1 = [("1.2.3.4", 10)]
          decide

/-! Claim theorems. -/

/-- C1. The quota invariant fails: with 11 concurrent requests from the
same identity, scheduling all 11 rate-limit checks before any of the
post-backend increments (possible because each increment runs only in
the continuation after the awaited backend call) lets every request
observe the stale count 0, so 11 Admit decisions are issued although the
configured maximum is 10. The check-and-increment of part_001 (read at
line 15, write at line 87) is not atomic. -/
theorem C1_quota_race_eval :
    MAX_REQUESTS_PER_IP = 10 ∧
      admittedCount (govRun (govInit 11) (raceSchedule 11)) = 11 := by
  constructor
  · rfl
  · decide

/-- C2 counterexample. A request whose single backend call throws (env
`failEnv`) is answered with the request-level error object
`{error: "Failed to process request"}` and HTTP status 500, not with a
NEEDS_REVIEW MatchResult: the failure is propagated as a request-level
error, refuting the claim. -/
theorem C2_counterexample :
    (POST failEnv req134 []).1 = serverErrorResponse ∧
      (POST failEnv req134 []).1.status = 500 ∧
      responseMatches (POST failEnv req134 []).1 = [] := by
  exact ⟨rfl, rfl, rfl⟩

/-- C2 amended. When the classifier backend call fails (timeout,
provider rate limit, network error), the whole request fails: the
catch-all handler returns the `{error}` object with status 500 and no
matches; no NEEDS_REVIEW fallback MatchResult is produced. -/
theorem C2_amended_backend_failure_fails_request (env : Env)
    (req : RequestModel) (pd : PatientData) (m : RateMap)
    (hcount : (mapGet m (getIp req)).getD 0 < MAX_REQUESTS_PER_IP)
    (hbody : req.body = some pd)
    (hkey : jsTruthyOpt env.GROQ_API_KEY = true)
    (hfail : env.backend = .failure) :
    (POST env req m).1 = serverErrorResponse ∧
      (POST env req m).1.status = 500 ∧
      responseMatches (POST env req m).1 = [] := by
  unfold POST
  rw [if_neg (Nat.not_le.mpr hcount), hbody, hkey, hfail]
  exact ⟨rfl, rfl, rfl⟩

/-- C2 witness: the amended theorem applied at the concrete failing
environment. -/
theorem C2_amended_witness :
    (POST failEnv req134 []).1 = serverErrorResponse ∧
      (POST failEnv req134 []).1.status = 500 ∧
      responseMatches (POST failEnv req134 []).1 = [] :=
  C2_amended_backend_failure_fails_request failEnv req134 samplePatient []
    (by decide) rfl rfl rfl

/-- C3 counterexample. In the sequential run of identical successful
requests from identity 1.2.3.4, request 10 (0-indexed 9) still
succeeds, and requests 11, 16 and 21 (0-indexed 10, 15, 20) are all
denied: the count never resets, so the claimed readmission at the next
window start never happens — `POST` has no notion of time or window at
all. -/
theorem C3_counterexample :
    seqResponse liveEnv req134 9 = successResponse okContent ∧
      seqResponse liveEnv req134 10 = rateLimitResponse ∧
      seqResponse liveEnv req134 15 = rateLimitResponse ∧
      seqResponse liveEnv req134 20 = rateLimitResponse := by
  exact ⟨rfl, rfl, rfl, rfl⟩

/-- C3 amended. With quota 10, the first 10 sequential successful
requests from one identity are admitted and every later request is
denied with the rate-limited response (empty matches, status 429),
permanently: the code has no window mechanism, so the count never resets
and the limit holds for the life of the process. -/
theorem C3_first_ten_then_denied_forever (n : Nat) :
    seqResponse liveEnv req134 n =
      if n < 10 then successResponse okContent else rateLimitResponse := by
  show (POST liveEnv req134 (runRequests liveEnv req134 n)).1 = _
  rw [runRequests_134 n]
  by_cases h0 : n = 0
  · subst h0
    decide
  · rw [if_neg h0]
    by_cases h10 : n < 10
    · have hmin : min n 10 = n := Nat.min_eq_left (Nat.le_of_lt h10)
      rw [hmin, if_pos h10]
      unfold POST
      have hget : (mapGet [("1.2.3.4", n)] (getIp req134)).getD 0 = n := by
        simp [mapGet, getIp, req134, jsOrString]
      simp only [hget]
      rw [if_neg (by simpa [MAX_REQUESTS_PER_IP] using Nat.not_le.mpr h10)]
      rfl
    · have hn10 : 10 ≤ n := Nat.le_of_not_lt h10
      have hmin : min n 10 = 10 := Nat.min_eq_right hn10
      rw [hmin, if_neg h10]
      decide

/-- C4. Whenever the rate governor denies a request (the stored count
has reached the maximum), the handler returns immediately: the response
is the `{message, matches: []}` shape with status 429, the map is
untouched and no effect — no body parse, no Groq import, no backend
call — is performed. -/
theorem C4_deny_no_work (env : Env) (req : RequestModel) (m : RateMap)
    (h : MAX_REQUESTS_PER_IP ≤ (mapGet m (getIp req)).getD 0) :
    POST env req m = (rateLimitResponse, m, ([] : List Effect)) ∧
      rateLimitResponse.status = 429 ∧
      responseMatches rateLimitResponse = [] := by
  refine ⟨?_, rfl, rfl⟩
  unfold POST
  rw [if_pos h]

/-- C4 witness: a map holding count 10 for identity 1.2.3.4. -/
theorem C4_deny_no_work_witness :
    POST liveEnv req134 [("1.2.3.4", 10)] =
      (rateLimitResponse, [("1.2.3.4", 10)], ([] : List Effect)) :=
  (C4_deny_no_work liveEnv req134 [("1.2.3.4", 10)] (by decide)).1

/-- C5 counterexample. A request whose body has no `conditions` field
and an out-of-range age (300) is processed like any other: the backend
classification call happens (its prompt interpolates the missing field
as `undefined`), the handler returns the normal 200 success response,
and no ValidationError of any kind is raised — refuting the claim that
such requests fail before any work occurs. -/
theorem C5_counterexample :
    POST liveEnv req134invalid [] =
      (successResponse okContent, [("1.2.3.4", 1)],
       [Effect.parseBody, Effect.importGroq,
        Effect.backendCall (mkPrompt invalidPatient)]) := by
  rfl

/-- C5 amended. The handler performs no validation of the patient
profile: for every parsed body — in particular one with empty or
missing `conditions`, or any age whatsoever — an admitted request with a
configured key always proceeds to the Groq import and the backend
classification call with the raw values interpolated into the prompt. -/
theorem C5_no_validation_all_bodies_classified (env : Env)
    (req : RequestModel) (pd : PatientData) (m : RateMap)
    (hcount : (mapGet m (getIp req)).getD 0 < MAX_REQUESTS_PER_IP)
    (hbody : req.body = some pd)
    (hkey : jsTruthyOpt env.GROQ_API_KEY = true) :
    (POST env req m).2.2 =
      [Effect.parseBody, Effect.importGroq,
       Effect.backendCall (mkPrompt pd)] := by
  unfold POST
  rw [if_neg (Nat.not_le.mpr hcount), hbody, hkey]
  cases henv : env.backend with
  | failure => rfl
  | success completion =>
      cases completion with
      | mk choices => cases choices <;> rfl

/-- C5 witness: the amended theorem applied to the body with no
`conditions` and age 300. -/
theorem C5_no_validation_witness :
    (POST liveEnv req134invalid []).2.2 =
      [Effect.parseBody, Effect.importGroq,
       Effect.backendCall (mkPrompt invalidPatient)] :=
  C5_no_validation_all_bodies_classified liveEnv req134invalid
    invalidPatient [] (by decide) rfl rfl

/-- C6. When `GROQ_API_KEY` is absent (or empty, which JS treats as
falsy), every admitted request with a parsed body takes the explicit
demo-mode branch: the backend is never invoked, the response carries the
demo message and exactly the single placeholder NEEDS_REVIEW match, and
the rate map is untouched; moreover under a keyless environment no
request whatsoever changes the rate map, so starting from the empty map
every request is admitted and served this way. -/
theorem C6_demo_mode :
    (∀ (env : Env) (req : RequestModel) (pd : PatientData) (m : RateMap),
        jsTruthyOpt env.GROQ_API_KEY = false →
        (mapGet m (getIp req)).getD 0 < MAX_REQUESTS_PER_IP →
        req.body = some pd →
        POST env req m = (demoResponse pd, m, [Effect.parseBody]) ∧
          responseMatches (demoResponse pd) =
            [ { nct_id := "NCT-DEMO-001",
                title := "Demo Trial for " ++ jsToString pd.conditions,
                status := "NEEDS_REVIEW",
                explanation := "This is a demo result. Configure Groq API for real matching." } ]) ∧
    (∀ (env : Env) (req : RequestModel) (m : RateMap),
        jsTruthyOpt env.GROQ_API_KEY = false →
        (POST env req m).2.1 = m) := by
  constructor
  · intro env req pd m hkey hcount hbody
    refine ⟨?_, rfl⟩
    unfold POST
    rw [if_neg (Nat.not_le.mpr hcount), hbody, hkey]
    rfl
  · intro env req m hkey
    unfold POST
    by_cases hden : MAX_REQUESTS_PER_IP ≤ (mapGet m (getIp req)).getD 0
    · rw [if_pos hden]
    · rw [if_neg hden]
      cases hbody : req.body with
      | none => rfl
      | some pd =>
          rw [hkey]
          rfl

/-- C6 witness: a keyless environment serving the sample patient from
the empty rate map. -/
theorem C6_demo_mode_witness :
    POST noKeyEnv req134 [] =
      (demoResponse samplePatient, [], [Effect.parseBody]) :=
  (C6_demo_mode.1 noKeyEnv req134 samplePatient [] rfl (by decide) rfl).1

/-- C7 counterexample. The corpus has 2 trials, but a successful
response contains exactly one MatchResult, the hardcoded lung-cancer
entry: the diabetes trial NCT05745350 never appears, refuting the claim
that every retrieved candidate appears in the response. -/
theorem C7_counterexample :
    SAMPLE_TRIALS.length = 2 ∧
      (responseMatches (routePOST liveEnv req134).1).map
        MatchResult.nct_id = ["NCT04743505"] := by
  exact ⟨rfl, rfl⟩

/-- C7 amended. There is no retrieval step with a K cut: the entire
2-trial corpus is embedded into the single classification prompt, and a
successful request always yields exactly one hardcoded MatchResult for
NCT04743505 (status ELIGIBLE, explanation sliced from the first choice);
the second trial never appears as a MatchResult. -/
theorem C7_single_hardcoded_match (env : Env) (req : RequestModel)
    (pd : PatientData) (content : String) (rest : List GroqChoice)
    (hbody : req.body = some pd)
    (hkey : jsTruthyOpt env.GROQ_API_KEY = true)
    (hsucc : env.backend =
      .success { choices := { message := { content := content } } :: rest }) :
    (routePOST env req).1 = successResponse content ∧
      (responseMatches (successResponse content)).map
        MatchResult.nct_id = ["NCT04743505"] ∧
      SAMPLE_TRIALS.length = 2 := by
  refine ⟨?_, rfl, rfl⟩
  unfold routePOST
  rw [hbody, hkey, hsucc]
  rfl

/-- C7 witness: the amended theorem at the live environment. -/
theorem C7_single_hardcoded_match_witness :
    (routePOST liveEnv req134).1 = successResponse okContent :=
  (C7_single_hardcoded_match liveEnv req134 samplePatient okContent []
    rfl rfl rfl).1

/-- C8. Every MatchResult in any response of the rate-limited handler
carries an explanation of at most 300 characters: the success branch
slices the raw backend content to 200 characters, the demo branch uses a
fixed 60-character string, and every other branch returns no matches at
all — so the bound holds regardless of the length of the raw backend
response. -/
theorem C8_explanation_bounded (env : Env) (req : RequestModel)
    (m : RateMap) (mr : MatchResult)
    (hmr : mr ∈ responseMatches (POST env req m).1) :
    mr.explanation.length ≤ 300 := by
  simp only [POST] at hmr
  split at hmr
  · simp [responseMatches, rateLimitResponse] at hmr
  · split at hmr
    · simp [responseMatches, serverErrorResponse] at hmr
    · split at hmr
      · simp [responseMatches, demoResponse] at hmr
        rw [hmr]
        show ("This is a demo result. Configure Groq API for real matching." : String).length ≤ 300
        decide
      · split at hmr
        · simp [responseMatches, serverErrorResponse] at hmr
        · split at hmr
          · simp [responseMatches, serverErrorResponse] at hmr
          · simp [responseMatches, successResponse] at hmr
            rw [hmr]
            exact le_trans (length_jsSlice_le _ 200) (by norm_num)

/-- C8 witness: the success-branch match of a concrete request. -/
theorem C8_explanation_bounded_witness :
    ({ nct_id := "NCT04743505", title := "Lung Cancer Study",
       status := "ELIGIBLE",
       explanation := jsSlice okContent 200 } : MatchResult).explanation.length
      ≤ 300 :=
  C8_explanation_bounded liveEnv req134 [] _ (by decide)

/-- C9. The per-status summary counts of the report conserve the total:
whenever every match carries one of the three defined statuses, the
ELIGIBLE, NOT_ELIGIBLE and NEEDS_REVIEW counts sum to the total number
of matches — including the absent- or empty-matches case, where all
four counts are 0. -/
theorem C9_counts_conserve_total (results : ResultsModel)
    (h : ∀ mr ∈ results.matchItems.getD [],
        mr.status = "ELIGIBLE" ∨ mr.status = "NOT_ELIGIBLE" ∨
          mr.status = "NEEDS_REVIEW") :
    eligibleCount results + notEligibleCount results + reviewCount results =
      totalCount results := by
  cases hm : results.matchItems with
  | none =>
      simp [eligibleCount, notEligibleCount, reviewCount, totalCount, hm]
  | some ms =>
      have h2 : ∀ mr ∈ ms, mr.status = "ELIGIBLE" ∨
          mr.status = "NOT_ELIGIBLE" ∨ mr.status = "NEEDS_REVIEW" := by
        rw [hm] at h
        simpa using h
      simp only [eligibleCount, notEligibleCount, reviewCount, totalCount, hm]
      exact counts_list_conserve ms h2

/-- C9 witness: the concrete four-match results object. -/
theorem C9_counts_conserve_total_witness :
    eligibleCount sampleResults + notEligibleCount sampleResults +
      reviewCount sampleResults = totalCount sampleResults :=
  C9_counts_conserve_total sampleResults (by decide)

/-- C10 counterexample. A request whose backend call succeeds but
returns a completion with an empty `choices` array increments the
counter (the increment at line 87 runs right after the await) and then
throws while reading `choices[0]`, landing in the error branch: the
request ends in the error branch yet the rate-limit map has changed,
refuting the claim that error-branch requests never count against the
quota. -/
theorem C10_counterexample :
    (POST emptyChoicesEnv req134 []).1 = serverErrorResponse ∧
      (POST emptyChoicesEnv req134 []).2.1 = [("1.2.3.4", 1)] := by
  exact ⟨rfl, rfl⟩

/-- C10 amended. The counter is incremented exactly when the backend
call returns, before the response is built: denied requests, demo-mode
requests and requests whose backend call throws leave the map unchanged,
while every request whose backend call resolves — even to an unusable
completion with no choices, which then ends in the error branch —
increments the identity's count by one. -/
theorem C10_increment_iff_backend_returns :
    (∀ (env : Env) (req : RequestModel) (m : RateMap),
        MAX_REQUESTS_PER_IP ≤ (mapGet m (getIp req)).getD 0 →
        (POST env req m).2.1 = m) ∧
    (∀ (env : Env) (req : RequestModel) (m : RateMap),
        jsTruthyOpt env.GROQ_API_KEY = false →
        (POST env req m).2.1 = m) ∧
    (∀ (env : Env) (req : RequestModel) (m : RateMap),
        env.backend = .failure →
        (POST env req m).2.1 = m) ∧
    (∀ (env : Env) (req : RequestModel) (pd : PatientData) (m : RateMap)
        (completion : Completion),
        (mapGet m (getIp req)).getD 0 < MAX_REQUESTS_PER_IP →
        req.body = some pd →
        jsTruthyOpt env.GROQ_API_KEY = true →
        env.backend = .success completion →
        (POST env req m).2.1 =
          mapSet m (getIp req) ((mapGet m (getIp req)).getD 0 + 1)) := by
  refine ⟨?_, ?_, ?_, ?_⟩
  · intro env req m h
    unfold POST
    rw [if_pos h]
  · intro env req m hkey
    unfold POST
    by_cases hden : MAX_REQUESTS_PER_IP ≤ (mapGet m (getIp req)).getD 0
    · rw [if_pos hden]
    · rw [if_neg hden]
      cases hbody : req.body with
      | none => rfl
      | some pd =>
          rw [hkey]
          rfl
  · intro env req m hfail
    unfold POST
    by_cases hden : MAX_REQUESTS_PER_IP ≤ (mapGet m (getIp req)).getD 0
    · rw [if_pos hden]
    · rw [if_neg hden]
      cases hbody : req.body with
      | none => rfl
      | some pd =>
          by_cases hkey : jsTruthyOpt env.GROQ_API_KEY
          · rw [hkey, hfail]
            rfl
          · rw [Bool.not_eq_true] at hkey
            rw [hkey]
            rfl
  · intro env req pd m completion hcount hbody hkey hsucc
    unfold POST
    rw [if_neg (Nat.not_le.mpr hcount), hbody, hkey, hsucc]
    cases completion with
    | mk choices => cases choices <;> rfl

/-- C10 witness: the map-changing conjunct at the empty-choices
environment, starting from the empty map. -/
theorem C10_increment_iff_backend_returns_witness :
    (POST emptyChoicesEnv req134 []).2.1 =
      mapSet [] (getIp req134) ((mapGet [] (getIp req134)).getD 0 + 1) :=
  C10_increment_iff_backend_returns.2.2.2 emptyChoicesEnv req134
    samplePatient [] { choices := [] } (by decide) rfl rfl rfl

end ClinicalTrialMatcher
